import Mathlib

/-!
# Loto room state machine: a shallow embedding

This file embeds the host-authoritative room state machine, the guest-side
reconciliation engine and the win-check utilities of the Loto application
(`src/unnamed/part_002`, `src/utils/gameUtils.ts`, `src/types.ts`) and proves
properties about command handling, snapshot serialization and sheet editing.

JavaScript `Set<number>` fields are modelled as `Finset ℕ`; `number[]` as
`List ℕ`; `number | null` as `Option ℕ`; monetary amounts as `ℤ`.
-/

namespace Loto

/-- `CellValue = number | null` from `src/types.ts`. -/
abbrev CellValue := Option Nat

/-- `TicketData` from `src/types.ts`: 9 rows of cells, an id and a color. -/
structure TicketData where
  rows : List (List CellValue)
  id : String
  color : String
deriving DecidableEq, Repr

/-- `PlayerStatus = 'playing' | 'spectating'` from `src/types.ts`. -/
inductive PlayerStatus where
  | playing
  | spectating
deriving DecidableEq, Repr

/-- `GameStatus = 'lobby' | 'waiting' | 'playing' | 'ended'` from `src/types.ts`. -/
inductive GameStatus where
  | lobby
  | waiting
  | playing
  | ended
deriving DecidableEq, Repr

/-- `Player` from `src/types.ts` (host-side representation: `markedNumbers` is a set). -/
structure Player where
  id : String
  name : String
  isHost : Bool
  isBot : Bool
  sheets : List TicketData
  markedNumbers : Finset Nat
  isReady : Bool
  color : String
  isWaiting : Bool
  balance : Int
  sheetCount : Nat
  status : PlayerStatus
deriving DecidableEq

/-- `RoomState` from `src/types.ts`. -/
structure RoomState where
  code : String
  players : List Player
  status : GameStatus
  calledNumbers : List Nat
  currentNumber : Option Nat
  winner : Option Player
  winningNumbers : List Nat
  mcCommentary : String
  betPrice : Int
  pot : Int
deriving DecidableEq

/-- The non-blank numbers of one ticket row (`row.filter(n => n !== null)`). -/
def rowNumbers (row : List CellValue) : List Nat := row.filterMap id

/-- `checkWin` from `src/utils/gameUtils.ts`: a single ticket wins iff some row is
non-empty and every number in it belongs to `markedNumbers`. -/
def checkWin (ticket : TicketData) (markedNumbers : Finset Nat) : Bool :=
  ticket.rows.any fun row =>
    decide (0 < (rowNumbers row).length) &&
      (rowNumbers row).all fun n => decide (n ∈ markedNumbers)

/-- Modelled from the spec: the multi-sheet win check that `src/unnamed/part_002`
imports (`checkWin(sheets, marked)` returning the winning row, used for
`winningNumbers`) is not under `src/` — only the earlier single-ticket boolean
version in `src/utils/gameUtils.ts` is.  Per the spec's win arbitration, a claim
is valid iff some sheet row is fully non-blank and every number in that row
belongs to the supplied marked set; the numbers of the first such row are
returned as the winning row. -/
def checkWinSheets (sheets : List TicketData) (marked : Finset Nat) : Option (List Nat) :=
  (((sheets.map TicketData.rows).flatten).map rowNumbers).find? fun ns =>
    decide (0 < ns.length) && ns.all fun n => decide (n ∈ marked)

/-- On a single sheet, the modelled multi-sheet check agrees with the in-repo
single-ticket `checkWin` of `src/utils/gameUtils.ts`. -/
theorem checkWinSheets_singleton (t : TicketData) (m : Finset Nat) :
    (checkWinSheets [t] m).isSome = checkWin t m := by
  rw [Bool.eq_iff_iff]
  simp only [checkWinSheets, checkWin, List.map_cons, List.map_nil, List.flatten_cons,
    List.flatten_nil, List.append_nil, List.find?_isSome, List.any_eq_true, List.mem_map,
    Bool.and_eq_true, decide_eq_true_eq, List.all_eq_true]
  constructor
  · rintro ⟨ns, ⟨row, hrow, rfl⟩, h⟩
    exact ⟨row, hrow, h⟩
  · rintro ⟨row, hrow, h⟩
    exact ⟨rowNumbers row, ⟨row, hrow, rfl⟩, h⟩

/-- The wire form of a participant, as carried by a `JOIN_REQUEST` payload and by
Snapshot `players` entries: identical to `Player` except that `markedNumbers` is
an array (`publishState` in `src/unnamed/part_002` maps the set through
`Array.from`; the guest rebuilds a set with `new Set(...)`). -/
structure WirePlayer where
  id : String
  name : String
  isHost : Bool
  isBot : Bool
  sheets : List TicketData
  markedNumbers : List Nat
  isReady : Bool
  color : String
  isWaiting : Bool
  balance : Int
  sheetCount : Nat
  status : PlayerStatus
deriving DecidableEq

/-- Rehydrate a wire participant into a host-side `Player`
(`{...p, markedNumbers: new Set(p.markedNumbers)}`). -/
def toPlayer (w : WirePlayer) : Player :=
  { id := w.id, name := w.name, isHost := w.isHost, isBot := w.isBot,
    sheets := w.sheets, markedNumbers := w.markedNumbers.toFinset,
    isReady := w.isReady, color := w.color, isWaiting := w.isWaiting,
    balance := w.balance, sheetCount := w.sheetCount, status := w.status }

/-- A `PLAYER_UPDATE` payload: `Partial<Player>` restricted to the fields the
clients actually send (`name`, `sheets`, `sheetCount`, `markedNumbers`,
`isReady`, `color`, `isWaiting`, `status`, `balance`); an absent field is
`none`, mirroring the JS object-spread semantics of `{...p, ...changes}`. -/
structure PlayerChanges where
  name : Option String := none
  sheets : Option (List TicketData) := none
  sheetCount : Option Nat := none
  markedNumbers : Option (Finset Nat) := none
  isReady : Option Bool := none
  color : Option String := none
  isWaiting : Option Bool := none
  status : Option PlayerStatus := none
  balance : Option Int := none
deriving DecidableEq

/-- The object spread `{ ...p, ...changes }` applied in the `PLAYER_UPDATE`
branch of `handleHostMessage`. -/
def applyChanges (p : Player) (c : PlayerChanges) : Player :=
  { p with
    name := c.name.getD p.name,
    sheets := c.sheets.getD p.sheets,
    sheetCount := c.sheetCount.getD p.sheetCount,
    markedNumbers := c.markedNumbers.getD p.markedNumbers,
    isReady := c.isReady.getD p.isReady,
    color := c.color.getD p.color,
    isWaiting := c.isWaiting.getD p.isWaiting,
    status := c.status.getD p.status,
    balance := c.balance.getD p.balance }

/-- JavaScript truthiness of `data.changes.sheetCount` in the guard
`if (data.changes.sheetCount && p.isReady) return p;` — an absent field
(`undefined`) and the number `0` are falsy, any other number is truthy. -/
def sheetCountTruthy (c : PlayerChanges) : Bool :=
  match c.sheetCount with
  | some n => decide (n ≠ 0)
  | none => false

/-- The guest→host command union handled by `handleHostMessage`
(`src/unnamed/part_002`, lines 514-612). -/
inductive Command where
  | joinRequest (player : WirePlayer)
  | playerLeave (playerId : String)
  | markUpdate (playerId : String) (markedNumbers : List Nat) (isWaiting : Bool)
  | playerUpdate (playerId : String) (changes : PlayerChanges)
  | bingoClaim (playerId : String) (markedNumbers : List Nat)
deriving DecidableEq

/-- The congratulation commentary set by a winning `BINGO_CLAIM`. -/
def winCommentary (winnerName : String) : String :=
  "CHÚC MỪNG! " ++ winnerName ++ " ĐÃ KINH RỒI!"

/-- `handleHostMessage` from `src/unnamed/part_002` as a pure state transformer:
the host state after the handler runs (the handler only calls `setGameState`
when `shouldUpdateLocal` is set, so the state is returned unchanged on every
rejected command path). -/
def applyCommand (s : RoomState) (c : Command) : RoomState :=
  match c with
  | .joinRequest w =>
      if s.players.any (fun p => decide (p.id = w.id)) then s
      else
        let isLate := s.status = GameStatus.playing
        let newPlayer : Player :=
          { toPlayer w with
            status := if isLate then .spectating else .playing,
            isReady := false }
        { s with players := s.players ++ [newPlayer] }
  | .playerLeave pid =>
      { s with players := s.players.filter (fun p => decide (¬ p.id = pid)) }
  | .markUpdate pid marks w =>
      { s with players := s.players.map fun p =>
          if p.id = pid then { p with markedNumbers := marks.toFinset, isWaiting := w } else p }
  | .playerUpdate pid ch =>
      { s with players := s.players.map fun p =>
          if p.id = pid then
            if sheetCountTruthy ch && p.isReady then p else applyChanges p ch
          else p }
  | .bingoClaim pid marks =>
      match s.players.find? (fun p => decide (p.id = pid)) with
      | some player =>
          if s.status = GameStatus.playing then
            match checkWinSheets player.sheets marks.toFinset with
            | some winningRow =>
                { s with
                  status := .ended,
                  winner := some player,
                  winningNumbers := winningRow,
                  mcCommentary := winCommentary player.name,
                  players := s.players.map fun p =>
                    if p.id = player.id then { p with balance := p.balance + s.pot } else p,
                  pot := 0 }
            | none => s
          else s
      | none => s

/-- The filter `p.status === 'playing' && p.isReady` used by `startGame`. -/
def isActiveReady (p : Player) : Bool :=
  decide (p.status = PlayerStatus.playing) && p.isReady

/-- The commentary set by `startGame`. -/
def startCommentary : String := "Trò chơi bắt đầu! Chuẩn bị dò số nào..."

/-- `startGame` from `src/unnamed/part_002` (lines 695-737) as a pure state
transformer: with no ready player the function alerts and returns (state
unchanged); otherwise every active+ready player is debited
`sheetCount * betPrice` (the debits accumulating into the round pot), every
active-but-not-ready player is demoted to spectator, and the room enters
`playing` with `pot` set to the accumulated total. -/
def startGame (s : RoomState) : RoomState :=
  let readyPlayers := s.players.filter isActiveReady
  if readyPlayers.length = 0 then s
  else
    let roundPot : Int :=
      readyPlayers.foldl (fun acc p => acc + (p.sheetCount : Int) * s.betPrice) 0
    let updatedPlayers := s.players.map fun p =>
      if p.status = PlayerStatus.playing then
        if p.isReady then { p with balance := p.balance - (p.sheetCount : Int) * s.betPrice }
        else { p with status := .spectating }
      else p
    { s with
      players := updatedPlayers
      status := GameStatus.playing
      mcCommentary := startCommentary
      pot := roundPot }

/-- The wire Snapshot published by `publishState` (`src/unnamed/part_002`,
lines 490-499): the full room with each roster entry's `markedNumbers`
converted to an array.  The `winner` field is a raw `Player` passed through
`JSON.stringify`/`JSON.parse` untouched; since `JSON.stringify` renders a JS
`Set` as an empty object `{}`, the winner's `markedNumbers` contents do not
survive the trip — modelled here by the winner carrying an empty set. -/
structure Snapshot where
  code : String
  players : List WirePlayer
  status : GameStatus
  calledNumbers : List Nat
  currentNumber : Option Nat
  winner : Option Player
  winningNumbers : List Nat
  mcCommentary : String
  betPrice : Int
  pot : Int
deriving DecidableEq

/-- Roster-entry serialization in `publishState`:
`{ ...p, markedNumbers: Array.from(p.markedNumbers) }`. -/
def serializePlayer (p : Player) : WirePlayer :=
  { id := p.id, name := p.name, isHost := p.isHost, isBot := p.isBot,
    sheets := p.sheets, markedNumbers := p.markedNumbers.sort (· ≤ ·),
    isReady := p.isReady, color := p.color, isWaiting := p.isWaiting,
    balance := p.balance, sheetCount := p.sheetCount, status := p.status }

/-- The JSON round trip of a raw `Player` value (the `winner` field of a
Snapshot): every plain field survives, but the `markedNumbers` `Set` is
serialized by `JSON.stringify` as an empty object, so its contents are lost. -/
def jsonRoundTripPlayer (p : Player) : Player :=
  { p with markedNumbers := ∅ }

/-- `publishState` from `src/unnamed/part_002` (lines 490-499), composed with
the JSON encode/decode of the wire payload. -/
def publishState (s : RoomState) : Snapshot :=
  { code := s.code, players := s.players.map serializePlayer,
    status := s.status, calledNumbers := s.calledNumbers,
    currentNumber := s.currentNumber,
    winner := s.winner.map jsonRoundTripPlayer,
    winningNumbers := s.winningNumbers, mcCommentary := s.mcCommentary,
    betPrice := s.betPrice, pot := s.pot }

/-- The follower-side client state relevant to reconciliation: the
`isConnecting` flag, the optimistic local mark overlay
(`localMarkedNumbersRef`) and the rendered `gameState`. -/
structure ClientView where
  isConnecting : Bool
  localMarks : Finset Nat
  gameState : RoomState
deriving DecidableEq

/-- Per-entry hydration inside `handleGuestMessage`: every entry is adopted
verbatim from the snapshot except the self entry of an already-confirmed
client (`p.id === myId && !isConnectingRef.current`), which keeps the local
optimistic mark overlay. -/
def hydratePlayer (myId : String) (isConnecting : Bool) (localMarks : Finset Nat)
    (w : WirePlayer) : Player :=
  if w.id = myId ∧ ¬ isConnecting = true then
    { toPlayer w with markedNumbers := localMarks }
  else toPlayer w

/-- `handleGuestMessage` from `src/unnamed/part_002` (lines 614-671) as a pure
function on the client view: hydrate the snapshot roster, ignore the frame
entirely when self is absent, flip `isConnecting` off (syncing the local
overlay from the snapshot) on the first frame containing self, and adopt the
snapshot as the new game state. -/
def handleGuestMessage (myId : String) (cv : ClientView) (snap : Snapshot) : ClientView :=
  let hydratedPlayers := snap.players.map (hydratePlayer myId cv.isConnecting cv.localMarks)
  match hydratedPlayers.find? (fun p => decide (p.id = myId)) with
  | none => cv
  | some amInList =>
      { isConnecting := false
        localMarks := if cv.isConnecting then amInList.markedNumbers else cv.localMarks
        gameState :=
          { code := snap.code, players := hydratedPlayers, status := snap.status,
            calledNumbers := snap.calledNumbers, currentNumber := snap.currentNumber,
            winner := snap.winner, winningNumbers := snap.winningNumbers,
            mcCommentary := snap.mcCommentary, betPrice := snap.betPrice, pot := snap.pot } }

/-- `handleMarkNumber` from `src/unnamed/part_002` (lines 806-833), restricted
to its effect on the local source-of-truth mark set
(`localMarkedNumbersRef`): toggles are only processed while `playing` for a
non-spectating participant; marking a number that was never called is
rejected, while unmarking is always allowed. -/
def handleMarkNumber (s : RoomState) (myId : String) (localMarks : Finset Nat)
    (num : Nat) : Finset Nat :=
  if ¬ s.status = GameStatus.playing then localMarks
  else
    match s.players.find? (fun p => decide (p.id = myId)) with
    | none => localMarks
    | some me =>
        if me.status = PlayerStatus.spectating then localMarks
        else
          let isMarkedLocal := num ∈ localMarks
          if ¬ isMarkedLocal ∧ ¬ num ∈ s.calledNumbers then localMarks
          else if isMarkedLocal then localMarks.erase num
          else insert num localMarks

/-- `handleAddSheet` from `src/unnamed/part_002` (lines 446-461), restricted to
its effect on the acting participant (the freshly generated ticket is passed
in, ticket generation being random): a no-op once ready or at the 6-sheet
limit; otherwise appends the sheet, tracks `sheetCount` and clears the marks. -/
def handleAddSheet (me : Player) (newSheet : TicketData) : Player :=
  if me.isReady = true ∨ 6 ≤ me.sheets.length then me
  else
    let newSheets := me.sheets ++ [newSheet]
    { me with sheets := newSheets, sheetCount := newSheets.length, markedNumbers := ∅ }

/-- `handleRemoveSheet` from `src/unnamed/part_002` (lines 463-475), restricted
to its effect on the acting participant: a no-op once ready or at a single
sheet; otherwise drops the sheet at `index`, tracks `sheetCount` and clears
the marks. -/
def handleRemoveSheet (me : Player) (index : Nat) : Player :=
  if me.isReady = true ∨ me.sheets.length ≤ 1 then me
  else
    let newSheets := me.sheets.eraseIdx index
    { me with sheets := newSheets, sheetCount := newSheets.length, markedNumbers := ∅ }

/-- `INITIAL_STATE` from `src/unnamed/part_002` (lines 15-26). -/
def INITIAL_STATE : RoomState :=
  { code := "", players := [], status := .lobby, calledNumbers := [],
    currentNumber := none, winner := none, winningNumbers := [],
    mcCommentary := "", betPrice := 10000, pot := 0 }

/-! ### Concrete fixtures for witnesses and counterexamples -/

/-- A one-row sheet whose row holds 5, 12, 23 and 47. -/
def ticketA : TicketData :=
  { rows := [[some 5, some 12, some 23, some 47, none, none, none, none, none]],
    id := "tA", color := "#dc2626" }

/-- A one-row sheet whose row holds 5, 12 and 23. -/
def ticketB : TicketData :=
  { rows := [[some 5, some 12, some 23, none, none, none, none, none, none]],
    id := "tB", color := "#2563eb" }

/-- A ready active guest holding `ticketA`. -/
def alice : Player :=
  { id := "p1", name := "Alice", isHost := false, isBot := false,
    sheets := [ticketA], markedNumbers := ∅, isReady := true,
    color := "#dc2626", isWaiting := false, balance := 0, sheetCount := 1,
    status := .playing }

/-- A ready active guest holding `ticketB`. -/
def bob : Player :=
  { id := "p2", name := "Bob", isHost := false, isBot := false,
    sheets := [ticketB], markedNumbers := ∅, isReady := true,
    color := "#2563eb", isWaiting := false, balance := 0, sheetCount := 1,
    status := .playing }

/-- A mid-round room: 5, 12 and 23 have been called and the pot is 20000. -/
def playingRoom : RoomState :=
  { code := "AB12C", players := [alice, bob], status := .playing,
    calledNumbers := [5, 12, 23], currentNumber := some 23, winner := none,
    winningNumbers := [], mcCommentary := "", betPrice := 10000, pot := 20000 }

/-- A pre-round room awaiting start: both guests ready, nothing called. -/
def waitingRoom : RoomState :=
  { playingRoom with
    status := .waiting
    calledNumbers := []
    currentNumber := none
    pot := 0 }

/-- A finished room whose `winner` carries a non-empty mark set. -/
def endedRoom : RoomState :=
  { playingRoom with
    status := .ended
    winner := some { alice with markedNumbers := {5} }
    winningNumbers := [5, 12, 23]
    pot := 0 }

/-- A not-yet-ready active guest holding a single sheet. -/
def carol : Player :=
  { id := "p3", name := "Carol", isHost := false, isBot := false,
    sheets := [ticketA], markedNumbers := ∅, isReady := false,
    color := "#16a34a", isWaiting := false, balance := 0, sheetCount := 1,
    status := .playing }

/-- A join payload reusing Alice's id `"p1"`. -/
def wireAliceDup : WirePlayer :=
  { id := "p1", name := "Mallory", isHost := false, isBot := false,
    sheets := [ticketB], markedNumbers := [], isReady := false,
    color := "#9333ea", isWaiting := false, balance := 0, sheetCount := 1,
    status := .playing }

/-- A fresh join payload that claims to be ready and actively playing. -/
def wireDan : WirePlayer :=
  { id := "p9", name := "Dan", isHost := false, isBot := false,
    sheets := [ticketB], markedNumbers := [7], isReady := true,
    color := "#ea580c", isWaiting := false, balance := 5, sheetCount := 2,
    status := .playing }

/-- Alice's roster entry on the wire. -/
def wireAlice : WirePlayer :=
  { id := "p1", name := "Alice", isHost := false, isBot := false,
    sheets := [ticketA], markedNumbers := [5, 12], isReady := true,
    color := "#dc2626", isWaiting := false, balance := 0, sheetCount := 1,
    status := .playing }

/-- Bob's roster entry on the wire. -/
def wireBob : WirePlayer :=
  { id := "p2", name := "Bob", isHost := false, isBot := false,
    sheets := [ticketB], markedNumbers := [5], isReady := true,
    color := "#2563eb", isWaiting := false, balance := 0, sheetCount := 1,
    status := .playing }

/-- A concrete incoming Snapshot holding Alice's and Bob's wire entries. -/
def snapFixture : Snapshot :=
  { code := "AB12C", players := [wireAlice, wireBob], status := .playing,
    calledNumbers := [5, 12, 23], currentNumber := some 23, winner := none,
    winningNumbers := [], mcCommentary := "", betPrice := 10000, pot := 20000 }

/-!
## Shared lemmas
-/

/-- Accumulating `acc + f x` over a list is adding the sum of the image. -/
theorem foldl_add_eq_sum {α : Type} (f : α → Int) (l : List α) (c : Int) :
    l.foldl (fun acc x => acc + f x) c = c + (l.map f).sum := by
  induction l generalizing c with
  | nil => simp
  | cons x xs ih => simp [ih]; ring

/-- Set→array→set fidelity for one roster entry: rehydrating a serialized
participant restores it exactly. -/
theorem toPlayer_serializePlayer (p : Player) : toPlayer (serializePlayer p) = p := by
  simp [toPlayer, serializePlayer, Finset.sort_toFinset]

/-- Hydration never rewrites the participant id. -/
theorem hydratePlayer_id (myId : String) (b : Bool) (lm : Finset Nat) (w : WirePlayer) :
    (hydratePlayer myId b lm w).id = w.id := by
  unfold hydratePlayer
  split <;> rfl

/-!
## C1 — host-side win validation
-/

/-- **C1** (counterexample): the claim states that with `calledNumbers = [5,12,23]`
a `BingoClaim` asserting marks `{5,12,23,47}` must fail host re-validation.  In
the code the `BINGO_CLAIM` branch passes the claimant-supplied mark set
verbatim to the win check, which never consults `calledNumbers`: the claim is
accepted and the round ends. -/
theorem uncalled_claim_accepted :
    playingRoom.calledNumbers = [5, 12, 23] ∧
    (applyCommand playingRoom (Command.bingoClaim "p1" [5, 12, 23, 47])).status =
      GameStatus.ended :=
  ⟨rfl, by decide⟩

/-- **C1** (amended): the host-side win check uses the claimant-supplied
`markedNumbers` verbatim and never reads the host's `calledNumbers` — the
outcome of a `BingoClaim` is invariant under replacing `calledNumbers` by any
other list; in particular, with `calledNumbers = [5,12,23]`, the claim
asserting marks `{5,12,23,47}` passes host validation whenever some sheet row
lies inside the claimed set. -/
theorem bingo_check_ignores_calledNumbers :
    (∀ (s : RoomState) (pid : String) (marks called : List Nat),
        applyCommand { s with calledNumbers := called } (Command.bingoClaim pid marks) =
          { applyCommand s (Command.bingoClaim pid marks) with calledNumbers := called }) ∧
    (applyCommand playingRoom (Command.bingoClaim "p1" [5, 12, 23, 47])).winner =
      some alice := by
  constructor
  · intro s pid marks called
    have h1 : ({ s with calledNumbers := called } : RoomState).players = s.players := rfl
    have h2 : ({ s with calledNumbers := called } : RoomState).status = s.status := rfl
    simp only [applyCommand, h1, h2]
    cases List.find? (fun p => decide (p.id = pid)) s.players with
    | none => rfl
    | some player =>
        by_cases hs : s.status = GameStatus.playing
        · simp only [if_pos hs]
          cases checkWinSheets player.sheets marks.toFinset with
          | none => rfl
          | some row => rfl
        · simp only [if_neg hs]
  · decide

/-!
## C2 — the marks-within-calledNumbers invariant
-/

/-- **C2** (counterexample): in `playingRoom` every stored mark set is within
`calledNumbers`, yet a single `MarkUpdate` carrying `[47]` (never called)
produces a host state in which a participant's stored `markedNumbers` is not a
subset of `calledNumbers`: the host stores client-asserted marks verbatim. -/
theorem marked_subset_called_fails :
    ((playingRoom.players.all fun p =>
        decide (p.markedNumbers ⊆ playingRoom.calledNumbers.toFinset)) = true) ∧
    (((applyCommand playingRoom (Command.markUpdate "p1" [47] false)).players.all fun p =>
        decide (p.markedNumbers ⊆
          (applyCommand playingRoom (Command.markUpdate "p1" [47] false)).calledNumbers.toFinset))
      = false) :=
  ⟨by decide, by decide⟩

/-- **C2** (amended): the host adopts the `MarkUpdate`-supplied mark set
verbatim for the targeted participant (together with the supplied waiting
flag), so the stored set need not be a subset of `calledNumbers`. -/
theorem markUpdate_stores_client_marks (s : RoomState) (pid : String)
    (marks : List Nat) (w : Bool) (i : Nat) (p : Player)
    (hp : s.players[i]? = some p) (hid : p.id = pid) :
    (applyCommand s (Command.markUpdate pid marks w)).players[i]? =
      some { p with markedNumbers := marks.toFinset, isWaiting := w } := by
  simp [applyCommand, List.getElem?_map, hp, hid]

/-- Witness for `markUpdate_stores_client_marks` at `playingRoom` and Alice. -/
theorem markUpdate_stores_client_marks_witness :
    playingRoom.players[0]? = some alice ∧ alice.id = "p1" ∧
    (applyCommand playingRoom (Command.markUpdate "p1" [47] false)).players[0]? =
      some { alice with markedNumbers := [47].toFinset, isWaiting := false } :=
  ⟨by decide, by decide,
    markUpdate_stores_client_marks playingRoom "p1" [47] false 0 alice (by decide) (by decide)⟩

/-!
## C3 — first valid claim wins, later claims are no-ops
-/

/-- A `BINGO_CLAIM` received while the room is not in `playing` leaves the
state unchanged. -/
theorem bingo_noop_of_not_playing (t : RoomState) (pid : String) (marks : List Nat)
    (h : ¬ t.status = GameStatus.playing) :
    applyCommand t (Command.bingoClaim pid marks) = t := by
  simp only [applyCommand]
  cases t.players.find? (fun p => decide (p.id = pid)) with
  | none => rfl
  | some q => simp only [if_neg h]

/-- **C3**: with the room in `playing` and two individually valid `BingoClaim`s
from distinct participants pending, processing the first claim ends the round
(setting `winner` and `winningNumbers`, crediting the pot to every roster
entry with the winner's id and zeroing `pot`), and processing the second
claim afterwards leaves the state unchanged — exactly one claim transitions
`status` to `ended`. -/
theorem first_valid_claim_wins (s : RoomState) (pid1 pid2 : String)
    (marks1 marks2 : List Nat) (p1 p2 : Player) (row1 row2 : List Nat)
    (hs : s.status = GameStatus.playing)
    (hf1 : s.players.find? (fun p => decide (p.id = pid1)) = some p1)
    (hw1 : checkWinSheets p1.sheets marks1.toFinset = some row1)
    (hf2 : s.players.find? (fun p => decide (p.id = pid2)) = some p2)
    (hw2 : checkWinSheets p2.sheets marks2.toFinset = some row2)
    (hne : ¬ pid1 = pid2) :
    (applyCommand s (Command.bingoClaim pid1 marks1)).status = GameStatus.ended ∧
    (applyCommand s (Command.bingoClaim pid1 marks1)).winner = some p1 ∧
    (applyCommand s (Command.bingoClaim pid1 marks1)).winningNumbers = row1 ∧
    (applyCommand s (Command.bingoClaim pid1 marks1)).pot = 0 ∧
    (∀ (i : Nat) (q : Player), s.players[i]? = some q →
        (applyCommand s (Command.bingoClaim pid1 marks1)).players[i]? =
          some (if q.id = p1.id then { q with balance := q.balance + s.pot } else q)) ∧
    applyCommand (applyCommand s (Command.bingoClaim pid1 marks1))
        (Command.bingoClaim pid2 marks2) =
      applyCommand s (Command.bingoClaim pid1 marks1) := by
  have happly : applyCommand s (Command.bingoClaim pid1 marks1) =
      { s with
        status := .ended
        winner := some p1
        winningNumbers := row1
        mcCommentary := winCommentary p1.name
        players := s.players.map fun p =>
          if p.id = p1.id then { p with balance := p.balance + s.pot } else p
        pot := 0 } := by
    simp only [applyCommand, hf1, if_pos hs, hw1]
  refine ⟨by rw [happly], by rw [happly], by rw [happly], by rw [happly], ?_, ?_⟩
  · intro i q hq
    rw [happly]
    simp only [List.getElem?_map, hq, Option.map_some]
    by_cases hid : q.id = p1.id
    · simp [hid]
    · simp [hid]
  · have hstat : (applyCommand s (Command.bingoClaim pid1 marks1)).status =
        GameStatus.ended := by rw [happly]
    have hnp : ¬ (applyCommand s (Command.bingoClaim pid1 marks1)).status =
        GameStatus.playing := by
      rw [hstat]; intro h; exact absurd h (by decide)
    exact bingo_noop_of_not_playing _ pid2 marks2 hnp

/-- Witness for `first_valid_claim_wins`: in `playingRoom`, Alice's claim over
`{5,12,23,47}` and Bob's claim over `{5,12,23}` are both valid; Alice's is
processed first and wins, Bob's is then a no-op. -/
theorem first_valid_claim_wins_witness :
    playingRoom.status = GameStatus.playing ∧
    (applyCommand playingRoom (Command.bingoClaim "p1" [5, 12, 23, 47])).status =
      GameStatus.ended ∧
    applyCommand (applyCommand playingRoom (Command.bingoClaim "p1" [5, 12, 23, 47]))
        (Command.bingoClaim "p2" [5, 12, 23]) =
      applyCommand playingRoom (Command.bingoClaim "p1" [5, 12, 23, 47]) := by
  have h := first_valid_claim_wins playingRoom "p1" "p2" [5, 12, 23, 47] [5, 12, 23]
    alice bob [5, 12, 23, 47] [5, 12, 23] (by decide) (by decide) (by decide)
    (by decide) (by decide) (by decide)
  exact ⟨by decide, h.1, h.2.2.2.2.2⟩

/-!
## C4 — round-start economy
-/

/-- **C4**: starting a round from `waiting` (with at least one active+ready
participant, as the code requires) enters `playing`, sets `pot` to the sum of
`sheetCount · betPrice` over the active+ready participants, debits each
active+ready participant exactly `sheetCount · betPrice`, and demotes each
active-but-not-ready participant to spectator. -/
theorem startGame_economy (s : RoomState)
    (hw : s.status = GameStatus.waiting)
    (hr : ¬ (s.players.filter isActiveReady).length = 0) :
    (startGame s).status = GameStatus.playing ∧
    (startGame s).pot =
      ((s.players.filter isActiveReady).map fun p => (p.sheetCount : Int) * s.betPrice).sum ∧
    ∀ (i : Nat) (p : Player), s.players[i]? = some p →
      ((p.status = PlayerStatus.playing → p.isReady = true →
          (startGame s).players[i]? =
            some { p with balance := p.balance - (p.sheetCount : Int) * s.betPrice }) ∧
        (p.status = PlayerStatus.playing → p.isReady = false →
          (startGame s).players[i]? = some { p with status := PlayerStatus.spectating })) := by
  have hsg : startGame s =
      { s with
        players := s.players.map fun p =>
          if p.status = PlayerStatus.playing then
            if p.isReady then
              { p with balance := p.balance - (p.sheetCount : Int) * s.betPrice }
            else { p with status := .spectating }
          else p
        status := GameStatus.playing
        mcCommentary := startCommentary
        pot := (s.players.filter isActiveReady).foldl
          (fun acc p => acc + (p.sheetCount : Int) * s.betPrice) 0 } := by
    simp only [startGame, if_neg hr]
  refine ⟨by rw [hsg], ?_, ?_⟩
  · rw [hsg]
    show (s.players.filter isActiveReady).foldl
        (fun acc p => acc + (p.sheetCount : Int) * s.betPrice) 0 = _
    rw [foldl_add_eq_sum (fun p : Player => (p.sheetCount : Int) * s.betPrice)
      (s.players.filter isActiveReady) 0]
    ring
  · intro i p hp
    constructor
    · intro hstat hready
      rw [hsg]
      simp [List.getElem?_map, hp, hstat, hready]
    · intro hstat hready
      rw [hsg]
      simp [List.getElem?_map, hp, hstat, hready]

/-- Witness for `startGame_economy`: the spec scenario — `betPrice = 10000`,
two ready participants with one sheet each — yields `pot = 20000` and each
balance decreased by 10000. -/
theorem startGame_economy_witness :
    waitingRoom.status = GameStatus.waiting ∧
    ¬ (waitingRoom.players.filter isActiveReady).length = 0 ∧
    (startGame waitingRoom).pot =
      ((waitingRoom.players.filter isActiveReady).map fun p =>
        (p.sheetCount : Int) * waitingRoom.betPrice).sum := by
  have h := startGame_economy waitingRoom (by decide) (by decide)
  exact ⟨by decide, by decide, h.2.1⟩

/-!
## C5 — Snapshot round trip
-/

/-- **C5** (counterexample): serializing and deserializing a room whose
`winner` is non-null does not restore an equivalent aggregate — the winner's
`markedNumbers` set is serialized by `JSON.stringify` as an empty object, so
its contents are lost in transit (and `handleGuestMessage` adopts the
corrupted value as-is). -/
theorem snapshot_roundtrip_loses_winner_marks :
    (handleGuestMessage "p2" ⟨true, ∅, INITIAL_STATE⟩ (publishState endedRoom)).gameState ≠
      endedRoom := by
  intro h
  have hw := congrArg RoomState.winner h
  revert hw
  decide

/-- **C5** (amended): for a hydrating client that appears in the roster, the
Snapshot round trip (`publishState` then `handleGuestMessage`) restores the
room exactly whenever `winner` is null — `markedNumbers` set⇄array fidelity
holds for every roster entry; only a non-null `winner`'s `markedNumbers` is
lost. -/
theorem snapshot_roundtrip_winner_none (s : RoomState) (myId : String)
    (lm : Finset Nat) (g : RoomState)
    (hmem : (s.players.any fun p => decide (p.id = myId)) = true)
    (hwin : s.winner = none) :
    (handleGuestMessage myId ⟨true, lm, g⟩ (publishState s)).gameState = s := by
  have hcomp : ∀ p : Player, hydratePlayer myId true lm (serializePlayer p) = p := by
    intro p
    unfold hydratePlayer
    rw [if_neg]
    · exact toPlayer_serializePlayer p
    · rintro ⟨-, h⟩; exact h rfl
  have hmap : (publishState s).players.map (hydratePlayer myId true lm) = s.players := by
    show (s.players.map serializePlayer).map (hydratePlayer myId true lm) = s.players
    rw [List.map_map]
    have hfun : hydratePlayer myId true lm ∘ serializePlayer = id := funext hcomp
    rw [hfun, List.map_id]
  dsimp only [handleGuestMessage]
  rw [hmap]
  cases hfind : List.find? (fun p => decide (p.id = myId)) s.players with
  | none =>
      exfalso
      rw [List.any_eq_true] at hmem
      obtain ⟨w, hwmem, hid⟩ := hmem
      exact absurd hid (List.find?_eq_none.mp hfind w hwmem)
  | some a =>
      dsimp only
      rcases s with ⟨code, players, status, called, curr, winner, wn, mc, bp, pot⟩
      simp only [publishState] at hwin ⊢
      rw [hwin]
      rfl

/-- Witness for `snapshot_roundtrip_winner_none`: round-tripping `playingRoom`
(winner null) through a hydrating client restores it exactly. -/
theorem snapshot_roundtrip_winner_none_witness :
    ((playingRoom.players.any fun p => decide (p.id = "p2")) = true ∧
      playingRoom.winner = none) ∧
    (handleGuestMessage "p2" ⟨true, ∅, INITIAL_STATE⟩ (publishState playingRoom)).gameState =
      playingRoom :=
  ⟨⟨by decide, rfl⟩,
    snapshot_roundtrip_winner_none playingRoom "p2" ∅ INITIAL_STATE (by decide) rfl⟩

/-!
## C6 — JoinRequest handling
-/

/-- **C6**: a `JoinRequest` whose participant id is already in the room leaves
the state unchanged; an accepted `JoinRequest` while `status = playing`
appends a participant forced to spectator and not ready, regardless of the
payload's claimed `status` and `isReady`. -/
theorem joinRequest_rules (s : RoomState) (w : WirePlayer) :
    ((s.players.any fun p => decide (p.id = w.id)) = true →
        applyCommand s (Command.joinRequest w) = s) ∧
    ((s.players.any fun p => decide (p.id = w.id)) = false →
      s.status = GameStatus.playing →
        ∃ np : Player,
          (applyCommand s (Command.joinRequest w)).players = s.players ++ [np] ∧
          np.status = PlayerStatus.spectating ∧ np.isReady = false ∧ np.id = w.id) := by
  constructor
  · intro h
    simp only [applyCommand, h, if_true]
  · intro h hs
    refine ⟨{ toPlayer w with status := .spectating, isReady := false }, ?_, rfl, rfl, rfl⟩
    simp only [applyCommand, h, Bool.false_eq_true, if_false]
    rw [if_pos hs]

/-- Witness for `joinRequest_rules`: a duplicate-id join into `playingRoom` is
dropped; a fresh join whose payload claims `isReady = true` and active play is
appended as a not-ready spectator. -/
theorem joinRequest_rules_witness :
    applyCommand playingRoom (Command.joinRequest wireAliceDup) = playingRoom ∧
    ∃ np : Player,
      (applyCommand playingRoom (Command.joinRequest wireDan)).players =
        playingRoom.players ++ [np] ∧
      np.status = PlayerStatus.spectating ∧ np.isReady = false ∧ np.id = wireDan.id :=
  ⟨(joinRequest_rules playingRoom wireAliceDup).1 (by decide),
    (joinRequest_rules playingRoom wireDan).2 (by decide) (by decide)⟩

/-!
## C7 — follower reconciliation
-/

/-- **C7**: on an incoming Snapshot that contains the self entry, every
participant entry other than self is adopted verbatim; the self entry is also
adopted verbatim while the client is still joining (`isConnecting = true`,
i.e. never yet confirmed present); once confirmed (`isConnecting = false`),
the self entry keeps the local optimistic `markedNumbers` overlay while every
other self field is adopted from the Snapshot. -/
theorem guest_reconciliation (myId : String) (cv : ClientView) (snap : Snapshot)
    (hmem : (snap.players.any fun w => decide (w.id = myId)) = true) :
    (∀ (i : Nat) (w : WirePlayer), snap.players[i]? = some w → ¬ w.id = myId →
        (handleGuestMessage myId cv snap).gameState.players[i]? = some (toPlayer w)) ∧
    (cv.isConnecting = true →
      ∀ (i : Nat) (w : WirePlayer), snap.players[i]? = some w → w.id = myId →
        (handleGuestMessage myId cv snap).gameState.players[i]? = some (toPlayer w)) ∧
    (cv.isConnecting = false →
      ∀ (i : Nat) (w : WirePlayer), snap.players[i]? = some w → w.id = myId →
        (handleGuestMessage myId cv snap).gameState.players[i]? =
          some { toPlayer w with markedNumbers := cv.localMarks }) := by
  have hsome : ∃ a, List.find? (fun p => decide (p.id = myId))
      (snap.players.map (hydratePlayer myId cv.isConnecting cv.localMarks)) = some a := by
    rw [← Option.isSome_iff_exists, List.find?_isSome]
    rw [List.any_eq_true] at hmem
    obtain ⟨w, hwmem, hid⟩ := hmem
    exact ⟨_, List.mem_map_of_mem _ hwmem, by simpa [hydratePlayer_id] using hid⟩
  obtain ⟨a, hfind⟩ := hsome
  have hplayers : (handleGuestMessage myId cv snap).gameState.players =
      snap.players.map (hydratePlayer myId cv.isConnecting cv.localMarks) := by
    dsimp only [handleGuestMessage]
    rw [hfind]
  refine ⟨?_, ?_, ?_⟩
  · intro i w hw hid
    rw [hplayers]
    simp only [List.getElem?_map, hw, Option.map_some']
    rw [Option.some_inj]
    unfold hydratePlayer
    rw [if_neg]
    rintro ⟨h1, -⟩
    exact hid h1
  · intro hc i w hw hid
    rw [hplayers, hc]
    simp only [List.getElem?_map, hw, Option.map_some']
    rw [Option.some_inj]
    unfold hydratePlayer
    rw [if_neg]
    rintro ⟨-, h2⟩
    exact h2 rfl
  · intro hc i w hw hid
    rw [hplayers, hc]
    simp only [List.getElem?_map, hw, Option.map_some']
    rw [Option.some_inj]
    unfold hydratePlayer
    rw [if_pos ⟨hid, by simp⟩]

/-- Witness for `guest_reconciliation` on `snapFixture`: a confirmed client
keeps its overlay for self, adopts Bob's entry verbatim; a still-joining
client adopts even its own entry verbatim. -/
theorem guest_reconciliation_witness :
    (handleGuestMessage "p1" ⟨false, {5}, INITIAL_STATE⟩ snapFixture).gameState.players[1]? =
      some (toPlayer wireBob) ∧
    (handleGuestMessage "p1" ⟨true, {5}, INITIAL_STATE⟩ snapFixture).gameState.players[0]? =
      some (toPlayer wireAlice) ∧
    (handleGuestMessage "p1" ⟨false, {5}, INITIAL_STATE⟩ snapFixture).gameState.players[0]? =
      some { toPlayer wireAlice with markedNumbers := {5} } :=
  ⟨(guest_reconciliation "p1" ⟨false, {5}, INITIAL_STATE⟩ snapFixture (by decide)).1
      1 wireBob (by decide) (by decide),
    (guest_reconciliation "p1" ⟨true, {5}, INITIAL_STATE⟩ snapFixture (by decide)).2.1
      rfl 0 wireAlice (by decide) rfl,
    (guest_reconciliation "p1" ⟨false, {5}, INITIAL_STATE⟩ snapFixture (by decide)).2.2
      rfl 0 wireAlice (by decide) rfl⟩

/-!
## C8 — sheet edits after readiness
-/

/-- **C8** (counterexample): the claim states that every sheet-composition
change (the `sheets` array or `sheetCount`) against a ready participant is
rejected; but the host guard only checks `changes.sheetCount`, so a
`PlayerUpdate` carrying a new `sheets` array alone is applied to ready Alice
and replaces her sheet. -/
theorem ready_sheets_change_applied :
    alice.isReady = true ∧ alice.sheets = [ticketA] ∧
    ((applyCommand waitingRoom
        (Command.playerUpdate "p1" { sheets := some [ticketB] })).players[0]?).map
      Player.sheets = some [ticketB] :=
  ⟨rfl, rfl, by decide⟩

/-- **C8** (amended): for a ready participant, only a `PlayerUpdate` whose
`changes` carry a truthy (present and non-zero) `sheetCount` is rejected; any
other change — in particular one touching only the `sheets` array — is
applied via the object spread. -/
theorem playerUpdate_ready_guard (s : RoomState) (pid : String) (ch : PlayerChanges)
    (i : Nat) (p : Player) (hp : s.players[i]? = some p) (hid : p.id = pid)
    (hready : p.isReady = true) :
    (sheetCountTruthy ch = true →
        (applyCommand s (Command.playerUpdate pid ch)).players[i]? = some p) ∧
    (sheetCountTruthy ch = false →
        (applyCommand s (Command.playerUpdate pid ch)).players[i]? =
          some (applyChanges p ch)) := by
  constructor
  · intro htr
    simp [applyCommand, List.getElem?_map, hp, hid, htr, hready]
  · intro htr
    simp [applyCommand, List.getElem?_map, hp, hid, htr, hready]

/-- Witness for `playerUpdate_ready_guard` at ready Alice: a sheets-only
change is applied; a change carrying `sheetCount := 2` is rejected. -/
theorem playerUpdate_ready_guard_witness :
    waitingRoom.players[0]? = some alice ∧ alice.isReady = true ∧
    (applyCommand waitingRoom (Command.playerUpdate "p1"
        { sheets := some [ticketB] })).players[0]? =
      some (applyChanges alice { sheets := some [ticketB] }) ∧
    (applyCommand waitingRoom (Command.playerUpdate "p1"
        { sheets := some [ticketB], sheetCount := some 2 })).players[0]? = some alice :=
  ⟨by decide, rfl,
    (playerUpdate_ready_guard waitingRoom "p1" { sheets := some [ticketB] } 0 alice
      (by decide) rfl rfl).2 (by decide),
    (playerUpdate_ready_guard waitingRoom "p1" { sheets := some [ticketB], sheetCount := some 2 }
      0 alice (by decide) rfl rfl).1 (by decide)⟩

/-!
## C9 — mark toggling rules
-/

/-- **C9**: while the room is `playing` and the acting participant is not a
spectator, toggling a number that is neither locally marked nor in
`calledNumbers` is rejected (local mark set unchanged), while toggling a
locally marked number always removes it — even when it is not in
`calledNumbers`. -/
theorem markNumber_toggle_rules (s : RoomState) (myId : String)
    (localMarks : Finset Nat) (num : Nat) (me : Player)
    (hs : s.status = GameStatus.playing)
    (hf : s.players.find? (fun p => decide (p.id = myId)) = some me)
    (hnspec : ¬ me.status = PlayerStatus.spectating) :
    (¬ num ∈ localMarks → ¬ num ∈ s.calledNumbers →
        handleMarkNumber s myId localMarks num = localMarks) ∧
    (num ∈ localMarks →
        handleMarkNumber s myId localMarks num = localMarks.erase num) := by
  constructor
  · intro hnm hnc
    simp [handleMarkNumber, hs, hf, hnspec, hnm, hnc]
  · intro hm
    simp [handleMarkNumber, hs, hf, hnspec, hm]

/-- Witness for `markNumber_toggle_rules` at `playingRoom` and Alice: marking
the never-called 47 is rejected; unmarking an already-marked 47 succeeds. -/
theorem markNumber_toggle_rules_witness :
    playingRoom.status = GameStatus.playing ∧
    handleMarkNumber playingRoom "p1" ∅ 47 = ∅ ∧
    handleMarkNumber playingRoom "p1" {47} 47 = Finset.erase {47} 47 :=
  ⟨rfl,
    (markNumber_toggle_rules playingRoom "p1" ∅ 47 alice rfl (by decide) (by decide)).1
      (by decide) (by decide),
    (markNumber_toggle_rules playingRoom "p1" {47} 47 alice rfl (by decide) (by decide)).2
      (by decide)⟩

/-!
## C10 — sheet-count bounds
-/

/-- **C10**: for a not-ready participant, adding a sheet at the 6-sheet limit
and removing a sheet at a single sheet are both no-ops, and whenever the
sheet count lies in `[1, 6]` it still does after either operation. -/
theorem sheet_count_bounds (p : Player) (t : TicketData) (i : Nat)
    (hre : p.isReady = false) (h1 : 1 ≤ p.sheets.length) (h6 : p.sheets.length ≤ 6) :
    (p.sheets.length = 6 → handleAddSheet p t = p) ∧
    (p.sheets.length = 1 → handleRemoveSheet p i = p) ∧
    (1 ≤ (handleAddSheet p t).sheets.length ∧ (handleAddSheet p t).sheets.length ≤ 6) ∧
    (1 ≤ (handleRemoveSheet p i).sheets.length ∧
      (handleRemoveSheet p i).sheets.length ≤ 6) := by
  refine ⟨?_, ?_, ?_, ?_⟩
  · intro h
    unfold handleAddSheet
    rw [if_pos (Or.inr (by omega))]
  · intro h
    unfold handleRemoveSheet
    rw [if_pos (Or.inr (by omega))]
  · unfold handleAddSheet
    by_cases hg : p.isReady = true ∨ 6 ≤ p.sheets.length
    · rw [if_pos hg]
      exact ⟨h1, h6⟩
    · rw [if_neg hg]
      push_neg at hg
      simp only [List.length_append, List.length_cons, List.length_nil]
      omega
  · unfold handleRemoveSheet
    by_cases hg : p.isReady = true ∨ p.sheets.length ≤ 1
    · rw [if_pos hg]
      exact ⟨h1, h6⟩
    · rw [if_neg hg]
      push_neg at hg
      have h2 : 2 ≤ p.sheets.length := by omega
      dsimp only
      rcases Nat.lt_or_ge i p.sheets.length with hlt | hge
      · rw [List.length_eraseIdx_of_lt hlt]
        omega
      · rw [List.eraseIdx_of_length_le hge]
        omega

/-- Witness for `sheet_count_bounds` at not-ready Carol (one sheet): removal
is a no-op and both operations keep the count in `[1, 6]`. -/
theorem sheet_count_bounds_witness :
    (carol.isReady = false ∧ 1 ≤ carol.sheets.length ∧ carol.sheets.length ≤ 6) ∧
    handleRemoveSheet carol 0 = carol ∧
    (1 ≤ (handleAddSheet carol ticketB).sheets.length ∧
      (handleAddSheet carol ticketB).sheets.length ≤ 6) :=
  ⟨⟨rfl, by decide, by decide⟩,
    (sheet_count_bounds carol ticketB 0 rfl (by decide) (by decide)).2.1 (by decide),
    (sheet_count_bounds carol ticketB 0 rfl (by decide) (by decide)).2.2.1⟩

end Loto
